import Mathlib

/-!
Verification of the `pelicanconf.py` settings document (a Pelican
static-site-generator configuration file).  The module body is a sequence of
top-level assignments of Python literals; executing the module produces the
settings mapping consumed by the external generator.  We embed the Python
literal values as an AST, the module body as an ordered list of assignments,
and module execution as a fold that inserts or replaces bindings in an
insertion-ordered environment (the semantics of a Python module namespace).
-/

namespace Pelicanconf

/-- Python literal values, as they occur in the settings document:
`None`, booleans, integers, strings, tuples, lists, and string-keyed dicts. -/
inductive PyVal where
  | none : PyVal
  | bool : Bool → PyVal
  | int : Int → PyVal
  | str : String → PyVal
  | tuple : List PyVal → PyVal
  | list : List PyVal → PyVal
  | dict : List (String × PyVal) → PyVal

/-- A module namespace: an insertion-ordered association list from names to
values, as a Python module `__dict__` is. -/
abbrev Env := List (String × PyVal)

/-- Execute one assignment `k = v` in a namespace: if `k` is already bound,
its binding is replaced in place; otherwise the binding is appended.  This is
how assignment behaves on a Python module namespace (insertion order kept,
reassignment keeps position). -/
def assign (env : Env) (k : String) (v : PyVal) : Env :=
  if env.any (fun p => p.1 = k) then
    env.map (fun p => if p.1 = k then (k, v) else p)
  else
    env ++ [(k, v)]

/-- Execute a sequence of assignment statements in order, starting from a
given namespace. -/
def execStmts (stmts : List (String × PyVal)) (env : Env) : Env :=
  stmts.foldl (fun e s => assign e s.1 s.2) env

/-- Load the module: execute its statements in an empty namespace.  The
result is the settings mapping read by the external generator. -/
def loadModule (stmts : List (String × PyVal)) : Env :=
  execStmts stmts []

/-- The assignment statements of `pelicanconf.py`, in source order.  Comment
lines bind nothing and are omitted; the duplicate `PATH = 'content'`
assignment (source lines 9 and 82) appears twice, as in the source. -/
def pelicanconfStmts : List (String × PyVal) := [
  ("AUTHOR", .str "Kevin Givens"),
  ("SITENAME", .str "Lost in the Lyceum"),
  ("SITEURL", .str ""),
  ("PATH", .str "content"),
  ("TIMEZONE", .str "America/New_York"),
  ("DEFAULT_LANG", .str "en"),
  ("FEED_ALL_ATOM", .none),
  ("FEED_ALL_RSS", .none),
  ("CATEGORY_FEED_ATOM", .none),
  ("TRANSLATION_FEED_ATOM", .none),
  ("AUTHOR_FEED_ATOM", .none),
  ("AUTHOR_FEED_RSS", .none),
  ("DISPLAY_CATEGORIES_ON_MENU", .bool false),
  ("SOCIAL", .tuple [
     .tuple [.str "twitter", .str "https://twitter.com/kevinmgivens"],
     .tuple [.str "linkedin",
             .str "https://www.linkedin.com/pub/kevin-m-givens/47/844/275"],
     .tuple [.str "github", .str "https://github.com/kevingivens"]]),
  ("DISPLAY_CATEGORIES_ON_SIDEBAR", .bool true),
  ("DEFAULT_PAGINATION", .int 10),
  ("PLUGIN_PATHS", .list [.str "../pelican-plugins"]),
  ("PLUGINS", .list [.str "i18n_subsites", .str "tipue_search",
                     .str "liquid_tags.notebook", .str "render_math"]),
  ("JINJA_ENVIRONMENT", .dict [("extensions", .list [.str "jinja2.ext.i18n"])]),
  ("THEME", .str "../pelican-themes/pelican-bootstrap3"),
  ("THEME_STATIC_DIR", .str "theme"),
  ("PATH", .str "content"),
  ("STATIC_PATHS", .list [.str "blog", .str "pages", .str "images"]),
  ("ARTICLE_PATHS", .list [.str "blog"]),
  ("BOOTSTRAP_THEME", .str "flatly"),
  ("FAVICON", .str "theme/images/icons/favicon.ico"),
  ("HIDE_SIDEBAR", .bool false),
  ("PYGMENTS_STYLE", .str "paraiso-dark"),
  ("USE_OPEN_GRAPH", .bool true),
  ("TWITTER_USERNAME", .str "kevinmgivens"),
  ("TWITTER_WIDGET_ID", .bool false),
  ("DIRECT_TEMPLATES", .tuple [.str "index", .str "categories", .str "authors",
                               .str "archives", .str "search"])]

/-- The settings mapping obtained by loading `pelicanconf.py`. -/
def settings : Env := loadModule pelicanconfStmts

/-- The value is a string literal. -/
def isStr : PyVal → Bool
  | .str _ => true
  | _ => false

/-- The value is a boolean literal (`True` or `False`). -/
def isBool : PyVal → Bool
  | .bool _ => true
  | _ => false

/-- The value is an integer literal. -/
def isInt : PyVal → Bool
  | .int _ => true
  | _ => false

/-- The value is the literal `None`. -/
def isNone : PyVal → Bool
  | .none => true
  | _ => false

/-- The value is a well-formed (label, URL) pair: a 2-tuple of two strings. -/
def isLabelUrlPair : PyVal → Bool
  | .tuple [.str _, .str _] => true
  | _ => false

/-- The value is a (label, URL) pair whose label and URL are both
non-empty strings. -/
def isNonEmptyLabelUrlPair : PyVal → Bool
  | .tuple [.str a, .str b] => !(a == "") && !(b == "")
  | _ => false

/-- The value is an ordered sequence (tuple or list) of (label, URL) pairs. -/
def isPairSeq : PyVal → Bool
  | .tuple xs => xs.all isLabelUrlPair
  | .list xs => xs.all isLabelUrlPair
  | _ => false

/-- The value is an ordered sequence (tuple or list) of strings. -/
def isStrSeq : PyVal → Bool
  | .tuple xs => xs.all isStr
  | .list xs => xs.all isStr
  | _ => false

/-- The value is a mapping of sub-options (a dict). -/
def isMapping : PyVal → Bool
  | .dict _ => true
  | _ => false

/-- The value is a string spelling of a boolean rather than a boolean. -/
def isBoolStr : PyVal → Bool
  | .str s => s == "True" || s == "False"
  | _ => false

/-- The set of value shapes the specification claims for settings values:
one of string, boolean, integer, ordered sequence of (label, URL) pairs,
or mapping of sub-options. -/
def specValueKind (v : PyVal) : Bool :=
  isStr v || isBool v || isInt v || isPairSeq v || isMapping v

/-- The value shapes that actually occur in the document: the ones the
specification claims, plus `None` (the disabled feed toggles) and ordered
sequences of strings (path, plugin and template lists). -/
def docValueKind (v : PyVal) : Bool :=
  specValueKind v || isNone v || isStrSeq v

/-- Contents of a string under `strSeqElems`. -/
def strOf : PyVal → Option String
  | .str s => some s
  | _ => none

/-- The string elements of a sequence value (tuple or list). -/
def strSeqElems : PyVal → List String
  | .tuple xs => xs.filterMap strOf
  | .list xs => xs.filterMap strOf
  | _ => []

/-- The social-link sequence exactly as declared on source lines 47-50 of
`pelicanconf.py`, in declaration order. -/
def socialDeclared : List PyVal := [
  .tuple [.str "twitter", .str "https://twitter.com/kevinmgivens"],
  .tuple [.str "linkedin",
          .str "https://www.linkedin.com/pub/kevin-m-givens/47/844/275"],
  .tuple [.str "github", .str "https://github.com/kevingivens"]]

/-- The six feed-generation toggle settings named by the specification. -/
def feedToggleNames : List String :=
  ["FEED_ALL_ATOM", "FEED_ALL_RSS", "CATEGORY_FEED_ATOM",
   "TRANSLATION_FEED_ATOM", "AUTHOR_FEED_ATOM", "AUTHOR_FEED_RSS"]

/-- The boolean-valued toggle options assigned in the document: the menu,
sidebar and display flags, the Open Graph switch, and the Twitter widget
switch. -/
def boolToggleNames : List String :=
  ["DISPLAY_CATEGORIES_ON_MENU", "DISPLAY_CATEGORIES_ON_SIDEBAR",
   "HIDE_SIDEBAR", "USE_OPEN_GRAPH", "TWITTER_WIDGET_ID"]

end Pelicanconf

namespace Pelicanconf

/-- C1 counterexample: the claim that no setting name is bound more than
once in the document fails, because `PATH` is assigned twice (source lines 9
and 82), so the key list of the document is not duplicate-free. -/
theorem C1_path_bound_twice :
    (pelicanconfStmts.map Prod.fst).count "PATH" = 2 ∧
    ¬ (pelicanconfStmts.map Prod.fst).Nodup := by
  refine ⟨by decide, ?_⟩
  decide

/-- C1 (amended): keys are unique in the loaded settings mapping, and in
the document source every setting name except `PATH` is bound exactly once
(`PATH` alone is bound twice). -/
theorem C1_keys_unique_amended :
    (settings.map Prod.fst).Nodup ∧
    ((pelicanconfStmts.map Prod.fst).all
      (fun k => k == "PATH" || (pelicanconfStmts.map Prod.fst).count k == 1)
      = true) := by
  exact ⟨by decide, by decide⟩

/-- C2 counterexample: the claim that every settings value is a string,
boolean, integer, (label, URL)-pair sequence, or mapping fails: the loaded
mapping binds `FEED_ALL_ATOM` to `None`, which is none of those shapes. -/
theorem C2_value_kind_counterexample :
    List.lookup "FEED_ALL_ATOM" settings = some PyVal.none ∧
    specValueKind PyVal.none = false :=
  ⟨rfl, rfl⟩

/-- C2 (amended): every value bound in the document, and in the loaded
mapping, is one of: a string, a boolean, an integer, `None`, an ordered
sequence of strings, an ordered sequence of (label, URL) pairs, or a
mapping of sub-options. -/
theorem C2_value_kinds_amended :
    pelicanconfStmts.all (fun p => docValueKind p.2) = true ∧
    settings.all (fun p => docValueKind p.2) = true :=
  ⟨rfl, rfl⟩

/-- C3: every feed-generation toggle (FEED_ALL_ATOM, FEED_ALL_RSS,
CATEGORY_FEED_ATOM, TRANSLATION_FEED_ATOM, AUTHOR_FEED_ATOM,
AUTHOR_FEED_RSS) is bound to `None`, the value that disables RSS/Atom
output in the consuming generator. -/
theorem C3_feed_toggles_disabled :
    feedToggleNames.all
      (fun k => isNone ((List.lookup k settings).getD (PyVal.bool true)))
      = true :=
  rfl

/-- C4: the social-link setting is bound, in the loaded mapping, to the
tuple declared on source lines 47-50 in its declaration order, and every
element of that sequence is a (label, URL) pair whose label and URL are
both non-empty strings. -/
theorem C4_social_pairs_wellformed_ordered :
    List.lookup "SOCIAL" settings = some (PyVal.tuple socialDeclared) ∧
    socialDeclared.all isNonEmptyLabelUrlPair = true :=
  ⟨rfl, rfl⟩

/-- C5: every boolean-valued toggle option of the document holds a literal
boolean value, and no value anywhere in the document is a string spelling
of a boolean such as the strings True or False. -/
theorem C5_boolean_options_literal :
    boolToggleNames.all
      (fun k => isBool ((List.lookup k settings).getD PyVal.none)) = true ∧
    settings.all (fun p => !(isBoolStr p.2)) = true :=
  ⟨rfl, rfl⟩

/-- C6: loading the settings document is deterministic: any two runs of the
load on the same source yield the same mapping; moreover re-executing the
document's statements on an already-loaded namespace leaves the mapping
unchanged (idempotent load). -/
theorem C6_load_deterministic (m₁ m₂ : Env)
    (h₁ : m₁ = loadModule pelicanconfStmts)
    (h₂ : m₂ = loadModule pelicanconfStmts) :
    m₁ = m₂ ∧ execStmts pelicanconfStmts m₁ = m₁ := by
  subst h₁; subst h₂
  exact ⟨rfl, rfl⟩

/-- C6 witness: the two loads of the document at the concrete source are
equal, and re-execution on the loaded namespace is the identity. -/
theorem C6_load_deterministic_witness :
    loadModule pelicanconfStmts = loadModule pelicanconfStmts ∧
    execStmts pelicanconfStmts (loadModule pelicanconfStmts) =
      loadModule pelicanconfStmts :=
  C6_load_deterministic (loadModule pelicanconfStmts)
    (loadModule pelicanconfStmts) rfl rfl

/-- C8: `PATH` is assigned twice in the document and both assignments bind
the string value content, so loading the document gives the same mapping
as loading it with the second `PATH` assignment (index 21, source line 82)
removed, and the final value of `PATH` is that string. -/
theorem C8_path_duplicate_harmless :
    (pelicanconfStmts.filter (fun p => p.1 == "PATH")).map Prod.snd
      = [PyVal.str "content", PyVal.str "content"] ∧
    ((pelicanconfStmts.eraseIdx 21).map Prod.fst).count "PATH" = 1 ∧
    loadModule pelicanconfStmts = loadModule (pelicanconfStmts.eraseIdx 21) ∧
    List.lookup "PATH" settings = some (PyVal.str "content") :=
  ⟨rfl, rfl, rfl, rfl⟩

/-- C9: every directory listed under ARTICLE_PATHS in the loaded mapping
also appears under STATIC_PATHS: here ARTICLE_PATHS is the list containing
blog and STATIC_PATHS is the list containing blog, pages and images. -/
theorem C9_article_paths_subset_static :
    (strSeqElems ((List.lookup "ARTICLE_PATHS" settings).getD PyVal.none)).all
      (fun d =>
        (strSeqElems
          ((List.lookup "STATIC_PATHS" settings).getD PyVal.none)).contains d)
      = true ∧
    List.lookup "ARTICLE_PATHS" settings
      = some (PyVal.list [PyVal.str "blog"]) ∧
    List.lookup "STATIC_PATHS" settings
      = some (PyVal.list
          [PyVal.str "blog", PyVal.str "pages", PyVal.str "images"]) :=
  ⟨rfl, rfl, rfl⟩

/-- C10: the site URL setting SITEURL is bound to the empty string in the
loaded mapping. -/
theorem C10_siteurl_empty :
    List.lookup "SITEURL" settings = some (PyVal.str "") :=
  rfl

end Pelicanconf
